import Mathlib

/-!
Shallow embedding of the chat session state synchronizer from
`src/frontend/src/pages/ChatPage.tsx` (Student-life-hub).

The React component's `useState` cells become fields of explicit state
records; each handler becomes a pure state-transition function.  Network
calls are modelled by passing the service's response (success payload or
rejection) as an argument, and `Math.random` / `Date.now` nondeterminism
by extra parameters.
-/

namespace ChatPage

/-- `ChatMessage` from `@/types`, as used by `ChatPage.tsx`. -/
structure ChatMessage where
  id : String
  userId : String
  username : String
  content : String
  timestamp : String
  roomId : String
  isModerated : Bool
deriving DecidableEq, Repr

/-- `ChatRoom` from `@/types`, as used by `ChatPage.tsx`.
`type` is `"global"` or `"private"`. -/
structure ChatRoom where
  id : String
  name : String
  code : String
  type : String
  members : List String
  createdBy : String
  createdAt : String
  maxMembers : Nat
  unreadCount : Nat
deriving DecidableEq, Repr

/-- The session-identity slice of the component state: the
`currentUsername` React state cell plus the `sessionStorage`
entry keyed `chatUsername` (lines 38-52). -/
structure SessionState where
  currentUsername : String
  storage : Option String
deriving DecidableEq, Repr

/-- The username generated at line 48:
`Student${Math.floor(Math.random() * 9999) + 1}`.  The random draw is
modelled by the parameter `n`; `Math.floor(Math.random() * 9999)` is a
number in `0..9998`, so the suffix is `n % 9999 + 1`. -/
def freshUsername (n : Nat) : String :=
  "Student" ++ toString (n % 9999 + 1)

/-- `getSessionUsername` (ChatPage.tsx lines 38-52).  Returns the
username, the updated session state, and whether a new username was
generated and persisted.  JS truthiness of `currentUsername` is
non-emptiness. -/
def getSessionUsername (s : SessionState) (fresh : String) :
    String × SessionState × Bool :=
  if s.currentUsername ≠ "" then
    (s.currentUsername, s, false)
  else
    match s.storage with
    | some stored => (stored, ⟨stored, s.storage⟩, false)
    | none => (fresh, ⟨fresh, some fresh⟩, true)

/-- **C8** — `resolveSessionUsername` is idempotent within a session:
after any first call, a second call (with an arbitrary, possibly
different random draw) returns the identical username, leaves the
session state — in particular the persisted storage — untouched, and
performs no generation/persistence. -/
theorem getSessionUsername_idem (s : SessionState) (f₁ f₂ : String) :
    (getSessionUsername (getSessionUsername s f₁).2.1 f₂).1
        = (getSessionUsername s f₁).1
    ∧ (getSessionUsername (getSessionUsername s f₁).2.1 f₂).2.1
        = (getSessionUsername s f₁).2.1
    ∧ (getSessionUsername (getSessionUsername s f₁).2.1 f₂).2.2 = false := by
  by_cases h : s.currentUsername = ""
  · cases hs : s.storage with
    | none =>
        by_cases hf : f₁ = ""
        · simp [getSessionUsername, h, hs, hf]
        · simp [getSessionUsername, h, hs, hf]
    | some stored =>
        by_cases hst : stored = ""
        · simp [getSessionUsername, h, hs, hst]
        · simp [getSessionUsername, h, hs, hst]
  · simp [getSessionUsername, h]

/-- The slice of the component state touched by `sendMessage`,
`loadChatRooms` and the room handlers: the `useState` cells of
ChatPage.tsx lines 20-27 plus the session storage.  `errorCount` counts
the destructive toasts raised so far (a user-facing error is surfaced
iff it increases). -/
structure ChatState where
  rooms : List ChatRoom
  activeRoomId : String
  messages : List ChatMessage
  newMessage : String
  isSending : Bool
  chatDisplayName : String
  currentUsername : String
  storage : Option String
  errorCount : Nat
deriving DecidableEq, Repr

/-- JS `String.prototype.trim` (strip leading and trailing whitespace),
modelled executably on the string's character list. -/
def jsTrim (s : String) : String :=
  ⟨((s.data.dropWhile Char.isWhitespace).reverse.dropWhile
      Char.isWhitespace).reverse⟩

/-- Outcome of the external `api.sendRoomMessage` call: the promise
resolves with `response.message` or rejects. -/
inductive SendResult where
  | ok (serverMsg : ChatMessage)
  | err
deriving DecidableEq, Repr

/-- The guard of `sendMessage` (line 143):
`if (!newMessage.trim() || isSending || !currentUser) return`. -/
def sendGuardBlocked (s : ChatState) (hasUser : Bool) : Bool :=
  (jsTrim s.newMessage).isEmpty || s.isSending || !hasUser

/-- The identity placed on the optimistic message (line 154):
`activeRoomId === 'global' ? getSessionUsername() : chatDisplayName`.
Returns the username together with the session state after the
(conditional) `getSessionUsername` call. -/
def resolveSendUsername (s : ChatState) (fresh : String) :
    String × SessionState :=
  if s.activeRoomId = "global" then
    let r := getSessionUsername ⟨s.currentUsername, s.storage⟩ fresh
    (r.1, r.2.1)
  else
    (s.chatDisplayName, ⟨s.currentUsername, s.storage⟩)

/-- The optimistic message built at lines 150-159.  `tempId` stands for
`temp_${Date.now()}_${Math.random()...}` and `now` for
`new Date().toISOString()`. -/
def optimisticMessage (s : ChatState) (uid tempId now fresh : String) :
    ChatMessage where
  id := tempId
  userId := uid
  username := (resolveSendUsername s fresh).1
  content := (jsTrim s.newMessage)
  timestamp := now
  roomId := s.activeRoomId
  isModerated := false

/-- The synchronous half of `sendMessage` (lines 141-162): guard, trim,
clear the compose field, set `isSending`, append the optimistic
message.  `uid` is `currentUser.uid`. -/
def sendMessageOptimistic (s : ChatState) (hasUser : Bool)
    (uid tempId now fresh : String) : ChatState :=
  if sendGuardBlocked s hasUser then s
  else
    let sess := (resolveSendUsername s fresh).2
    { s with
        newMessage := ""
        isSending := true
        currentUsername := sess.currentUsername
        storage := sess.storage
        messages := s.messages ++ [optimisticMessage s uid tempId now fresh] }

/-- Full `sendMessage` (lines 141-192), with the service outcome passed
in as `result`.  For the global room the api call re-invokes
`getSessionUsername` (line 168) with a second random draw `fresh₂`; on
success the optimistic message is replaced in place by
`response.message` (lines 175-177); on failure it is filtered out, the
trimmed text restored to the compose field and a toast raised
(lines 181-188); `finally` clears `isSending` (line 190). -/
def sendMessage (s : ChatState) (hasUser : Bool)
    (uid tempId now fresh fresh₂ : String) (result : SendResult) : ChatState :=
  if sendGuardBlocked s hasUser then s
  else
    let messageText := (jsTrim s.newMessage)
    let s₁ := sendMessageOptimistic s hasUser uid tempId now fresh
    let s₂ :=
      if s.activeRoomId = "global" then
        let r := getSessionUsername ⟨s₁.currentUsername, s₁.storage⟩ fresh₂
        { s₁ with currentUsername := r.2.1.currentUsername, storage := r.2.1.storage }
      else s₁
    match result with
    | .ok serverMsg =>
        { s₂ with
            messages := s₂.messages.map fun msg =>
              if msg.id = tempId then serverMsg else msg
            isSending := false }
    | .err =>
        { s₂ with
            messages := s₂.messages.filter fun msg => msg.id != tempId
            newMessage := messageText
            errorCount := s₂.errorCount + 1
            isSending := false }

/-- Replacing by an id that occurs nowhere in the list is the identity. -/
theorem map_replace_of_not_mem {l : List ChatMessage} {tempId : String}
    {sm : ChatMessage} (h : ∀ m ∈ l, m.id ≠ tempId) :
    (l.map fun msg => if msg.id = tempId then sm else msg) = l := by
  induction l with
  | nil => rfl
  | cons a t ih =>
      simp only [List.map_cons]
      rw [if_neg (h a (List.mem_cons_self a t)),
        ih fun m hm => h m (List.mem_cons_of_mem a hm)]

/-- **C5** — sends are serialized: while `isSending` is true the guard
makes a second `submit` a complete no-op, whatever the outcome: the
state (in particular the message list, so no second pending entry) is
unchanged. -/
theorem sendMessage_serialized (s : ChatState) (hasUser : Bool)
    (uid tempId now fresh fresh₂ : String) (result : SendResult)
    (h : s.isSending = true) :
    sendMessage s hasUser uid tempId now fresh fresh₂ result = s := by
  simp [sendMessage, sendGuardBlocked, h]

/-- Witness for `sendMessage_serialized` at a concrete in-flight state. -/
theorem sendMessage_serialized_witness :
    ({ rooms := [], activeRoomId := "global", messages := [],
       newMessage := "hi", isSending := true, chatDisplayName := "You",
       currentUsername := "", storage := none, errorCount := 0 } :
        ChatState).isSending = true
    ∧ sendMessage
        { rooms := [], activeRoomId := "global", messages := [],
          newMessage := "hi", isSending := true, chatDisplayName := "You",
          currentUsername := "", storage := none, errorCount := 0 }
        true "u1" "temp_1_a" "t1" "Student1" "Student2" .err
      = { rooms := [], activeRoomId := "global", messages := [],
          newMessage := "hi", isSending := true, chatDisplayName := "You",
          currentUsername := "", storage := none, errorCount := 0 } :=
  ⟨rfl, sendMessage_serialized _ true "u1" "temp_1_a" "t1" "Student1"
    "Student2" .err rfl⟩

/-- **C3** — failed send rolls back: if the guard passes and the service
rejects, no message with the pending local identifier remains, the
compose field holds the trimmed submitted content, a user-facing error
is surfaced, and `isSending` is cleared. -/
theorem sendMessage_failure_rollback (s : ChatState) (hasUser : Bool)
    (uid tempId now fresh fresh₂ : String)
    (h : sendGuardBlocked s hasUser = false) :
    (∀ m ∈ (sendMessage s hasUser uid tempId now fresh fresh₂ .err).messages,
        m.id ≠ tempId)
    ∧ (sendMessage s hasUser uid tempId now fresh fresh₂ .err).newMessage
        = (jsTrim s.newMessage)
    ∧ (sendMessage s hasUser uid tempId now fresh fresh₂ .err).isSending = false
    ∧ (sendMessage s hasUser uid tempId now fresh fresh₂ .err).errorCount
        = s.errorCount + 1 := by
  by_cases hg : s.activeRoomId = "global" <;>
    simp [sendMessage, sendMessageOptimistic, h, hg, List.mem_filter] <;>
    tauto

/-- A concrete idle state (compose field filled, no send in flight) used
to exercise the send path on concrete inputs. -/
def idleState : ChatState :=
  { rooms := [], activeRoomId := "global", messages := [],
    newMessage := "hello", isSending := false, chatDisplayName := "You",
    currentUsername := "Student7", storage := some "Student7", errorCount := 0 }

/-- A concrete server-confirmed message used on concrete inputs. -/
def serverMsgW : ChatMessage :=
  { id := "srv1", userId := "u1", username := "Student7", content := "hello",
    timestamp := "t2", roomId := "global", isModerated := false }

/-- Witness for `sendMessage_failure_rollback` at a concrete state. -/
theorem sendMessage_failure_rollback_witness :
    sendGuardBlocked idleState true = false
    ∧ ((∀ m ∈ (sendMessage idleState true "u1" "temp_1_a" "t1" "Student1"
          "Student2" .err).messages, m.id ≠ "temp_1_a")
       ∧ (sendMessage idleState true "u1" "temp_1_a" "t1" "Student1"
            "Student2" .err).newMessage = (jsTrim idleState.newMessage)
       ∧ (sendMessage idleState true "u1" "temp_1_a" "t1" "Student1"
            "Student2" .err).isSending = false
       ∧ (sendMessage idleState true "u1" "temp_1_a" "t1" "Student1"
            "Student2" .err).errorCount = idleState.errorCount + 1) :=
  ⟨by decide, sendMessage_failure_rollback idleState true "u1" "temp_1_a"
    "t1" "Student1" "Student2" (by decide)⟩

/-- **C4** — successful send reconciles in place: if the pending id is
fresh for the current list, the final list is exactly the old list with
the server message where the pending entry sat (appended position, no
re-sorting); the send's message occurs exactly once (by server id, when
that id is new), and no pending-style `temp_` identifier remains when
none was there before and the server id is not pending-style. -/
theorem sendMessage_success_reconcile (s : ChatState) (hasUser : Bool)
    (uid tempId now fresh fresh₂ : String) (serverMsg : ChatMessage)
    (h : sendGuardBlocked s hasUser = false)
    (hfresh : ∀ m ∈ s.messages, m.id ≠ tempId) :
    (sendMessage s hasUser uid tempId now fresh fresh₂ (.ok serverMsg)).messages
      = s.messages ++ [serverMsg]
    ∧ ((∀ m ∈ s.messages, m.id ≠ serverMsg.id) →
        ((sendMessage s hasUser uid tempId now fresh fresh₂
            (.ok serverMsg)).messages.countP
          fun m => m.id == serverMsg.id) = 1)
    ∧ ((∀ m ∈ s.messages, m.id.startsWith "temp_" = false) →
        serverMsg.id.startsWith "temp_" = false →
        ∀ m ∈ (sendMessage s hasUser uid tempId now fresh fresh₂
            (.ok serverMsg)).messages,
          m.id.startsWith "temp_" = false)
    ∧ (sendMessage s hasUser uid tempId now fresh fresh₂
        (.ok serverMsg)).isSending = false := by
  have hmsgs : (sendMessage s hasUser uid tempId now fresh fresh₂
      (.ok serverMsg)).messages = s.messages ++ [serverMsg] := by
    by_cases hg : s.activeRoomId = "global" <;>
      simp [sendMessage, sendMessageOptimistic, h, hg, optimisticMessage,
        map_replace_of_not_mem hfresh]
  refine ⟨hmsgs, ?_, ?_, ?_⟩
  · intro hid
    rw [hmsgs, List.countP_append]
    have h0 : (s.messages.countP fun m => m.id == serverMsg.id) = 0 := by
      rw [List.countP_eq_zero]
      intro m hm
      simp [hid m hm]
    simp [h0]
  · intro hpend hsrv m hm
    rw [hmsgs] at hm
    rcases List.mem_append.mp hm with h1 | h1
    · exact hpend m h1
    · rw [List.mem_singleton.mp h1]
      exact hsrv
  · by_cases hg : s.activeRoomId = "global" <;>
      simp [sendMessage, sendMessageOptimistic, h, hg]

/-- Witness for `sendMessage_success_reconcile` at a concrete state. -/
theorem sendMessage_success_reconcile_witness :
    sendGuardBlocked idleState true = false
    ∧ (∀ m ∈ idleState.messages, m.id ≠ "temp_1_a")
    ∧ ((sendMessage idleState true "u1" "temp_1_a" "t1" "Student1" "Student2"
          (.ok serverMsgW)).messages = idleState.messages ++ [serverMsgW]
       ∧ ((∀ m ∈ idleState.messages, m.id ≠ serverMsgW.id) →
           ((sendMessage idleState true "u1" "temp_1_a" "t1" "Student1"
               "Student2" (.ok serverMsgW)).messages.countP
             fun m => m.id == serverMsgW.id) = 1)
       ∧ ((∀ m ∈ idleState.messages, m.id.startsWith "temp_" = false) →
           serverMsgW.id.startsWith "temp_" = false →
           ∀ m ∈ (sendMessage idleState true "u1" "temp_1_a" "t1" "Student1"
               "Student2" (.ok serverMsgW)).messages,
             m.id.startsWith "temp_" = false)
       ∧ (sendMessage idleState true "u1" "temp_1_a" "t1" "Student1"
           "Student2" (.ok serverMsgW)).isSending = false) :=
  ⟨by decide, by decide, sendMessage_success_reconcile idleState true "u1"
    "temp_1_a" "t1" "Student1" "Student2" serverMsgW (by decide) (by decide)⟩

/-- **C10** — in the global room the pending message carries the real
authenticated user id in `userId`; only `username` is anonymized to the
session username, so (whenever the uid differs from the anonymous name)
the pending entry's `userId` is not the anonymous identity. -/
theorem optimistic_global_identity (s : ChatState) (hasUser : Bool)
    (uid tempId now fresh : String)
    (hroom : s.activeRoomId = "global")
    (hguard : sendGuardBlocked s hasUser = false)
    (hanon : uid ≠ (getSessionUsername ⟨s.currentUsername, s.storage⟩ fresh).1) :
    (sendMessageOptimistic s hasUser uid tempId now fresh).messages
      = s.messages ++ [optimisticMessage s uid tempId now fresh]
    ∧ (optimisticMessage s uid tempId now fresh).userId = uid
    ∧ (optimisticMessage s uid tempId now fresh).username
        = (getSessionUsername ⟨s.currentUsername, s.storage⟩ fresh).1
    ∧ (optimisticMessage s uid tempId now fresh).userId
        ≠ (optimisticMessage s uid tempId now fresh).username := by
  refine ⟨by simp [sendMessageOptimistic, hguard], rfl, ?_, ?_⟩ <;>
    simp [optimisticMessage, resolveSendUsername, hroom, hanon]

/-- Witness for `optimistic_global_identity` at a concrete state. -/
theorem optimistic_global_identity_witness :
    idleState.activeRoomId = "global"
    ∧ sendGuardBlocked idleState true = false
    ∧ "u1" ≠ (getSessionUsername ⟨idleState.currentUsername, idleState.storage⟩
        "Student1").1
    ∧ ((sendMessageOptimistic idleState true "u1" "temp_1_a" "t1"
          "Student1").messages
        = idleState.messages ++ [optimisticMessage idleState "u1" "temp_1_a"
            "t1" "Student1"]
       ∧ (optimisticMessage idleState "u1" "temp_1_a" "t1" "Student1").userId
          = "u1"
       ∧ (optimisticMessage idleState "u1" "temp_1_a" "t1" "Student1").username
          = (getSessionUsername ⟨idleState.currentUsername, idleState.storage⟩
              "Student1").1
       ∧ (optimisticMessage idleState "u1" "temp_1_a" "t1" "Student1").userId
          ≠ (optimisticMessage idleState "u1" "temp_1_a" "t1"
              "Student1").username) :=
  ⟨rfl, by decide, by decide, optimistic_global_identity idleState true "u1"
    "temp_1_a" "t1" "Student1" rfl (by decide) (by decide)⟩

/-- The global room synthesized at ChatPage.tsx lines 89-99 when the
service response lacks one.  `now` stands for
`new Date().toISOString()`. -/
def globalRoomFallback (now : String) : ChatRoom where
  id := "global"
  name := "Global Chat"
  code := "GLOBAL"
  type := "global"
  members := []
  createdBy := "system"
  createdAt := now
  maxMembers := 1000
  unreadCount := 0

/-- `loadChatRooms` (ChatPage.tsx lines 78-109).  The service outcome is
passed as `response`: rejection, or success whose `rooms` field may be
absent (`response.rooms || []`).  Returns the new room list and whether
a user-facing error toast was raised. -/
def loadChatRooms (rooms : List ChatRoom) (hasUser : Bool)
    (response : Except Unit (Option (List ChatRoom))) (now : String) :
    List ChatRoom × Bool :=
  if !hasUser then (rooms, false)
  else
    match response with
    | .error _ => (rooms, true)
    | .ok respRooms =>
        let fetched := respRooms.getD []
        match fetched.find? fun room => room.id == "global" with
        | some _ => (fetched, false)
        | none => (fetched ++ [globalRoomFallback now], false)

/-- **C6** — global-room synthesis: on any successful response whose
fetched list carries at most one `"global"` entry (room ids are unique
in the data model), the resulting list has exactly one room with id
`"global"`; when the response lacks one it is the synthesized room with
the fixed attributes; and a second `loadChatRooms` on the same response
rebuilds the identical list — no duplicate. -/
theorem loadChatRooms_global_unique (rooms : List ChatRoom)
    (fetched : List ChatRoom) (now : String)
    (h : (fetched.countP fun room => room.id == "global") ≤ 1) :
    ((loadChatRooms rooms true (.ok (some fetched)) now).1.countP
        fun room => room.id == "global") = 1
    ∧ ((fetched.countP fun room => room.id == "global") = 0 →
        (loadChatRooms rooms true (.ok (some fetched)) now).1
          = fetched ++ [globalRoomFallback now])
    ∧ loadChatRooms ((loadChatRooms rooms true (.ok (some fetched)) now).1)
        true (.ok (some fetched)) now
      = loadChatRooms rooms true (.ok (some fetched)) now
    ∧ (globalRoomFallback now).name = "Global Chat"
    ∧ (globalRoomFallback now).code = "GLOBAL"
    ∧ (globalRoomFallback now).members = []
    ∧ (globalRoomFallback now).maxMembers = 1000
    ∧ (globalRoomFallback now).createdBy = "system" := by
  refine ⟨?_, ?_, rfl, rfl, rfl, rfl, rfl, rfl⟩
  · cases hf : fetched.find? fun room => room.id == "global" with
    | none =>
        have h0 : (fetched.countP fun room => room.id == "global") = 0 := by
          rw [List.countP_eq_zero]
          intro room hroom
          exact List.find?_eq_none.mp hf room hroom
        simp [loadChatRooms, hf, List.countP_append, h0, globalRoomFallback,
          List.countP_cons]
    | some room =>
        have hp := List.find?_some hf
        have hmem := List.mem_of_find?_eq_some hf
        have h1 : 1 ≤ fetched.countP fun room => room.id == "global" := by
          rw [Nat.one_le_iff_ne_zero]
          intro h0
          rw [List.countP_eq_zero] at h0
          exact h0 room hmem hp
        simp [loadChatRooms, hf]
        omega
  · intro h0
    have hf : (fetched.find? fun room => room.id == "global") = none := by
      rw [List.find?_eq_none]
      intro room hroom
      rw [List.countP_eq_zero] at h0
      exact h0 room hroom
    simp [loadChatRooms, hf]

/-- Witness for `loadChatRooms_global_unique` on a concrete response. -/
theorem loadChatRooms_global_unique_witness :
    (([] : List ChatRoom).countP fun room => room.id == "global") ≤ 1
    ∧ (((loadChatRooms [] true (.ok (some [])) "t0").1.countP
          fun room => room.id == "global") = 1
       ∧ ((([] : List ChatRoom).countP fun room => room.id == "global") = 0 →
           (loadChatRooms [] true (.ok (some [])) "t0").1
             = [] ++ [globalRoomFallback "t0"])
       ∧ loadChatRooms ((loadChatRooms [] true (.ok (some [])) "t0").1)
           true (.ok (some [])) "t0"
         = loadChatRooms [] true (.ok (some [])) "t0"
       ∧ (globalRoomFallback "t0").name = "Global Chat"
       ∧ (globalRoomFallback "t0").code = "GLOBAL"
       ∧ (globalRoomFallback "t0").members = []
       ∧ (globalRoomFallback "t0").maxMembers = 1000
       ∧ (globalRoomFallback "t0").createdBy = "system") :=
  ⟨by decide, loadChatRooms_global_unique [] [] "t0" (by decide)⟩

/-- **C7** — `loadChatRooms` is atomic on failure: when the fetch
rejects, the room list is returned exactly as it was and a user-facing
error is surfaced. -/
theorem loadChatRooms_failure_atomic (rooms : List ChatRoom) (now : String) :
    loadChatRooms rooms true (.error ()) now = (rooms, true) :=
  rfl

/-- `handleRoomCreated` (ChatPage.tsx lines 206-209): appends the room
to the list unconditionally and makes it active. -/
def handleRoomCreated (rooms : List ChatRoom) (room : ChatRoom) :
    List ChatRoom × String :=
  (rooms ++ [room], room.id)

/-- `handleRoomJoined` (ChatPage.tsx lines 211-214): identical body to
`handleRoomCreated`. -/
def handleRoomJoined (rooms : List ChatRoom) (room : ChatRoom) :
    List ChatRoom × String :=
  (rooms ++ [room], room.id)

/-- A concrete private room used to exercise repeated event delivery. -/
def roomR1 : ChatRoom :=
  { id := "r1", name := "Study", code := "ABC123", type := "private",
    members := ["u1"], createdBy := "u1", createdAt := "t0",
    maxMembers := 5, unreadCount := 0 }

/-- **C1 refutation on the code** — delivering a `created` (or `joined`)
event whose room id is already present appends a second copy: starting
from a list already holding `roomR1`, the handlers yield a list with two
entries of id `"r1"`, not one. -/
theorem handleRoomCreated_duplicates :
    ((handleRoomCreated [roomR1] roomR1).1.countP
        fun room => room.id == "r1") = 2
    ∧ ((handleRoomJoined [roomR1] roomR1).1.countP
        fun room => room.id == "r1") = 2 := by
  decide

/-- The room-switch / message-load slice of the component state.
`pendingLoads` records the target room ids of in-flight
`loadRoomMessages` calls; the code keeps no such tag — the field only
lets the trace semantics say which completions may still arrive. -/
structure LoadState where
  activeRoomId : String
  messages : List ChatMessage
  isLoading : Bool
  pendingLoads : List String
deriving DecidableEq, Repr

/-- Events of the load machine: `select r` is a room switch (the
`activeRoomId` effect at ChatPage.tsx lines 72-76, which starts
`loadRoomMessages r`); `finish target msgs` is the completion of the
in-flight load started for `target`, delivering the service's
message list. -/
inductive LoadEvent where
  | select (roomId : String)
  | finish (target : String) (msgs : List ChatMessage)
deriving DecidableEq, Repr

/-- One step of the machine as `loadRoomMessages` implements it
(lines 124-139): a completion runs `setMessages(response.messages)`
unconditionally — the load's target room is never compared with the
currently active room. -/
def stepLoad (s : LoadState) (e : LoadEvent) : LoadState :=
  match e with
  | .select r =>
      { s with activeRoomId := r, isLoading := true,
               pendingLoads := s.pendingLoads ++ [r] }
  | .finish target msgs =>
      { s with messages := msgs, isLoading := false,
               pendingLoads := s.pendingLoads.erase target }

/-- Run the load machine over a trace of events. -/
def runLoad (s : LoadState) (es : List LoadEvent) : LoadState :=
  es.foldl stepLoad s

/-- The component's initial load state (lines 21-24):
active room `"global"`, no messages, no load in flight. -/
def initLoadState : LoadState :=
  { activeRoomId := "global", messages := [], isLoading := false,
    pendingLoads := [] }

/-- A concrete message of room `"A"`. -/
def msgA : ChatMessage :=
  { id := "a1", userId := "u2", username := "Ann", content := "from A",
    timestamp := "t1", roomId := "A", isModerated := false }

/-- A concrete message of room `"B"`. -/
def msgB : ChatMessage :=
  { id := "b1", userId := "u3", username := "Bea", content := "from B",
    timestamp := "t2", roomId := "B", isModerated := false }

/-- **C1 refutation on the code** — with a load for room `"A"` still in
flight, switching to room `"B"` and completing B's load, the late
completion for `"A"` replaces B's displayed messages: the final state
has active room `"B"` but message list `[msgA]`, not `[msgB]` — nothing
in the code tags loads or discards stale responses. -/
theorem loadRace_overwrites :
    (runLoad initLoadState
        [.select "A", .select "B", .finish "B" [msgB],
         .finish "A" [msgA]]).activeRoomId = "B"
    ∧ (runLoad initLoadState
        [.select "A", .select "B", .finish "B" [msgB],
         .finish "A" [msgA]]).messages = [msgA]
    ∧ ([msgA] : List ChatMessage) ≠ [msgB] := by
  decide

/-- The own-message attribution at ChatPage.tsx lines 300-304. -/
def isOwnMessage (hasUser : Bool) (uid activeRoomId : String)
    (sess : SessionState) (fresh : String) (message : ChatMessage) : Bool :=
  hasUser &&
    (if activeRoomId = "global" then
      message.username == (getSessionUsername sess fresh).1
     else
      message.userId == uid)

/-- **C9** — attribution is decided by room: with a signed-in caller,
while the global room is active a message is the caller's own iff its
username equals the resolved session username; while any other room is
active, iff its userId equals the caller's uid. -/
theorem isOwnMessage_rule (uid activeRoomId : String) (sess : SessionState)
    (fresh : String) (message : ChatMessage) :
    (isOwnMessage true uid activeRoomId sess fresh message = true)
      ↔ (if activeRoomId = "global" then
          message.username = (getSessionUsername sess fresh).1
         else
          message.userId = uid) := by
  by_cases hg : activeRoomId = "global" <;> simp [isOwnMessage, hg]

end ChatPage
